import Mathlib

/-!
Shallow embedding of forkgram-desktop's Linux GTK integration layer
(src/Telegram/SourceFiles/platform/linux/linux_gtk_integration.cpp) and of the
"send as copy" album path (src/Telegram/SourceFiles/api/api_as_copy.cpp),
together with theorems settling the specification claims about them.
-/

namespace Forkgram

/-! ### MD5 (service-identity hashing)

`GtkIntegration::Start` derives the per-instance service identity by hashing
the absolute working-directory path with `hashMd5Hex` and splicing the hex
digest into a per-type service-name template.  `hashMd5Hex` itself lives in
the base library, outside the excerpted sources, so it is modelled here from
the spec ("hex MD5 digest of the absolute working-directory path") as a full
MD5 implementation over byte lists, with 32-bit arithmetic carried out on
`Nat` reduced mod `2 ^ 32`. -/

/-- Addition mod `2 ^ 32`. -/
def add32 (a b : Nat) : Nat := (a + b) % 4294967296

/-- Bitwise complement within 32 bits (valid for inputs below `2 ^ 32`). -/
def not32 (a : Nat) : Nat := a ^^^ 4294967295

/-- Left-rotation of a 32-bit word by `s` places (`0 < s < 32`). -/
def rotl32 (x s : Nat) : Nat :=
  ((x <<< s) ||| (x >>> (32 - s))) % 4294967296

/-- Per-round additive constants of MD5 (RFC 1321). -/
def md5K : List Nat :=
  [0xd76aa478, 0xe8c7b756, 0x242070db, 0xc1bdceee,
   0xf57c0faf, 0x4787c62a, 0xa8304613, 0xfd469501,
   0x698098d8, 0x8b44f7af, 0xffff5bb1, 0x895cd7be,
   0x6b901122, 0xfd987193, 0xa679438e, 0x49b40821,
   0xf61e2562, 0xc040b340, 0x265e5a51, 0xe9b6c7aa,
   0xd62f105d, 0x02441453, 0xd8a1e681, 0xe7d3fbc8,
   0x21e1cde6, 0xc33707d6, 0xf4d50d87, 0x455a14ed,
   0xa9e3e905, 0xfcefa3f8, 0x676f02d9, 0x8d2a4c8a,
   0xfffa3942, 0x8771f681, 0x6d9d6122, 0xfde5380c,
   0xa4beea44, 0x4bdecfa9, 0xf6bb4b60, 0xbebfbc70,
   0x289b7ec6, 0xeaa127fa, 0xd4ef3085, 0x04881d05,
   0xd9d4d039, 0xe6db99e5, 0x1fa27cf8, 0xc4ac5665,
   0xf4292244, 0x432aff97, 0xab9423a7, 0xfc93a039,
   0x655b59c3, 0x8f0ccc92, 0xffeff47d, 0x85845dd1,
   0x6fa87e4f, 0xfe2ce6e0, 0xa3014314, 0x4e0811a1,
   0xf7537e82, 0xbd3af235, 0x2ad7d2bb, 0xeb86d391]

/-- Per-round left-rotation amounts of MD5 (RFC 1321). -/
def md5S : List Nat :=
  [7, 12, 17, 22, 7, 12, 17, 22, 7, 12, 17, 22, 7, 12, 17, 22,
   5, 9, 14, 20, 5, 9, 14, 20, 5, 9, 14, 20, 5, 9, 14, 20,
   4, 11, 16, 23, 4, 11, 16, 23, 4, 11, 16, 23, 4, 11, 16, 23,
   6, 10, 15, 21, 6, 10, 15, 21, 6, 10, 15, 21, 6, 10, 15, 21]

/-- Little-endian 32-bit word number `j` of a 64-byte chunk. -/
def chunkWord (chunk : List Nat) (j : Nat) : Nat :=
  chunk.getD (4 * j) 0
    + 256 * chunk.getD (4 * j + 1) 0
    + 65536 * chunk.getD (4 * j + 2) 0
    + 16777216 * chunk.getD (4 * j + 3) 0

/-- One of the 64 MD5 rounds applied to the running state `(a, b, c, d)`. -/
def md5Round (chunk : List Nat) (st : Nat × Nat × Nat × Nat) (i : Nat) :
    Nat × Nat × Nat × Nat :=
  let (a, b, c, d) := st
  let f :=
    if i < 16 then (b &&& c) ||| (not32 b &&& d)
    else if i < 32 then (d &&& b) ||| (not32 d &&& c)
    else if i < 48 then b ^^^ c ^^^ d
    else c ^^^ (b ||| not32 d)
  let g :=
    if i < 16 then i
    else if i < 32 then (5 * i + 1) % 16
    else if i < 48 then (3 * i + 5) % 16
    else (7 * i) % 16
  let f := add32 (add32 (add32 f a) (md5K.getD i 0)) (chunkWord chunk g)
  (d, add32 b (rotl32 f (md5S.getD i 0)), b, c)

/-- MD5 compression of one 64-byte chunk into the running digest state. -/
def md5Compress (st : Nat × Nat × Nat × Nat) (chunk : List Nat) :
    Nat × Nat × Nat × Nat :=
  let (a, b, c, d) := (List.range 64).foldl (md5Round chunk) st
  (add32 st.1 a, add32 st.2.1 b, add32 st.2.2.1 c, add32 st.2.2.2 d)

/-- MD5 padding: append `0x80`, zero bytes up to 56 mod 64, then the
original bit length as a little-endian 64-bit number. -/
def md5PadBytes (msg : List Nat) : List Nat :=
  let len := msg.length
  let zeros := (120 - ((len + 1) % 64)) % 64
  msg ++ [128] ++ List.replicate zeros 0
    ++ (List.range 8).map (fun i => ((8 * len) >>> (8 * i)) % 256)

/-- Folds the MD5 compression over consecutive 64-byte chunks; the fuel
argument (structural recursion) strictly exceeds the number of chunks
whenever it is at least the message length. -/
def md5BlocksGo : Nat → (Nat × Nat × Nat × Nat) → List Nat →
    Nat × Nat × Nat × Nat
  | 0, st, _ => st
  | fuel + 1, st, msg =>
    if msg = [] then st
    else md5BlocksGo fuel (md5Compress st (msg.take 64)) (msg.drop 64)

/-- Folds the MD5 compression over all 64-byte chunks of the message. -/
def md5Blocks (st : Nat × Nat × Nat × Nat) (msg : List Nat) :
    Nat × Nat × Nat × Nat :=
  md5BlocksGo msg.length st msg

/-- The 16-byte MD5 digest of a byte list. -/
def md5Digest (msg : List Nat) : List Nat :=
  let (a, b, c, d) := md5Blocks
    (1732584193, 4023233417, 2562383102, 271733878)
    (md5PadBytes msg)
  [a, b, c, d].flatMap
    (fun w => [w % 256, (w >>> 8) % 256, (w >>> 16) % 256, (w >>> 24) % 256])

/-- Lowercase hex character for a nibble. -/
def nibbleChar (n : Nat) : Char := "0123456789abcdef".data.getD n '0'

/-- Two lowercase hex characters for one byte. -/
def byteHexChars (b : Nat) : List Char :=
  [nibbleChar ((b >>> 4) % 16), nibbleChar (b % 16)]

/-- Modelled from the spec: `hashMd5Hex` of the base library (not part of the
excerpt) — the lowercase hex MD5 digest of a byte sequence. -/
def hashMd5Hex (msg : List Nat) : String :=
  ⟨(md5Digest msg).flatMap byteHexChars⟩

/-- Byte sequence of an ASCII string, standing in for
`QFile::encodeName(...)` on ASCII paths. -/
def asciiBytes (s : String) : List Nat := s.data.map Char.toNat

/-! ### Service identities and the process supervisor

Embeds the `kService`/`kBaseService`/`kWebviewService` templates, the
`QString::arg` place-marker substitution used on them, and
`GtkIntegration::Start` / `GtkIntegration::Autorestart`. -/

/-- The three integration types accepted by `Start` / `Exec`. -/
inductive IntegrationType
  | Base
  | Webview
  | TDesktop
deriving DecidableEq, Repr

/-- Template `kService` for the application (TDesktop) helper. -/
def kService : String := "org.telegram.desktop.GtkIntegration-%1"

/-- Template `kBaseService` for the base-toolkit helper. -/
def kBaseService : String := "org.telegram.desktop.BaseGtkIntegration-%1"

/-- Template `kWebviewService` for embedded-web-view helpers. -/
def kWebviewService : String :=
  "org.telegram.desktop.GtkIntegration.WebviewHelper-%1-%2"

/-- Replaces every occurrence of the two-character marker `'%'digit` in a
character list by `rep`, scanning left to right. -/
def replaceMarker (digit : Char) (rep : List Char) : List Char → List Char
  | [] => []
  | [c] => [c]
  | c :: d :: rest =>
    if c = '%' ∧ d = digit then rep ++ replaceMarker digit rep rest
    else c :: replaceMarker digit rep (d :: rest)

/-- One `QString::arg(a)` step: substitutes marker `'%'digit` (the lowest
marker present at the call site) throughout the template. -/
def qtArg (tmpl : String) (digit : Char) (a : String) : String :=
  ⟨replaceMarker digit a.data tmpl.data⟩

/-- The service identity recorded by `Start` for each type: the per-type
template with `%1` replaced by the hex MD5 digest of the working-directory
bytes (and, for `Webview`, `%2` replaced by a literal `"%1"` slot, filled
later per web-view instance). -/
def startServiceName (t : IntegrationType) (workdirBytes : List Nat) :
    String :=
  let h := hashMd5Hex workdirBytes
  match t with
  | .Base => qtArg kBaseService '1' h
  | .Webview => qtArg (qtArg kWebviewService '1' h) '2' "%1"
  | .TDesktop => qtArg kService '1' h

/-- The spec's per-type service-name template (the part before the
`-<hex-hash>` suffix), for comparison with `startServiceName`. -/
def specTemplate (t : IntegrationType) : String :=
  match t with
  | .Base => "org.telegram.desktop.BaseGtkIntegration"
  | .Webview => "org.telegram.desktop.GtkIntegration.WebviewHelper"
  | .TDesktop => "org.telegram.desktop.GtkIntegration"

/-- Service identity of the form the spec states: template, hyphen, digest. -/
def specServiceName (t : IntegrationType) (workdirBytes : List Nat) :
    String :=
  specTemplate t ++ "-" ++ hashMd5Hex workdirBytes

/-- Mode flag passed as the child's first positional argument. -/
def startModeFlag (t : IntegrationType) : String :=
  if t = .Base then "-basegtkintegration" else "-gtkintegration"

/-- `GtkIntegration::Start`, reduced to its observable spawn: returns the
positional argument list of the detached child, or `none` when no child is
spawned.  `busUniqueName` is the parent's unique connection name; `none`
models `Gio::DBus::Connection::get_sync` throwing (caught, yielding an empty
`QString`).  For `Webview`, `Start` records the service name and returns
before the spawn. -/
def Start (t : IntegrationType) (workdirBytes : List Nat)
    (busUniqueName : Option String) : Option (List String) :=
  match t with
  | .Webview => none
  | t =>
    let h := hashMd5Hex workdirBytes
    let dbusName := busUniqueName.getD ""
    if dbusName = "" then none
    else some [startModeFlag t, dbusName,
      if t = .Base then qtArg kBaseService '1' h else qtArg kService '1' h]

/-- The types `Autorestart` supervises (it returns at once for any other). -/
def supervisedByAutorestart (t : IntegrationType) : Bool :=
  t = .Base || t = .TDesktop

/-- One `GtkIntegration::Autorestart(t)` call, tracked by its effect on the
number of service watches registered per type: for a supervised type with an
obtainable bus connection it calls `RegisterServiceWatcher` once,
unconditionally; otherwise it registers nothing.  (`RegisterServiceWatcher`
is modelled from the spec, which describes it as installing a watch — it is
not in the excerpt and no deduplication is specified for it.) -/
def Autorestart (connOk : Bool) (watches : IntegrationType → Nat)
    (t : IntegrationType) : IntegrationType → Nat :=
  if supervisedByAutorestart t && connOk then
    fun u => if u = t then watches u + 1 else watches u
  else watches

/-- Watch counts per type after a sequence of `Autorestart` calls, starting
from no watches. -/
def watchesAfter (connOk : Bool) (calls : List IntegrationType) :
    IntegrationType → Nat :=
  calls.foldl (Autorestart connOk) (fun _ => 0)

/-! ### Bus object / method dispatcher

Embeds `GtkIntegration::Private::handleMethodCall`: sender authentication,
dispatch of `Load` and `ShowOpenWithDialog`, and the fall-through
unknown-method fault. -/

/-- A D-Bus variant argument, as far as the dispatcher inspects one. -/
inductive Variant
  | vString (s : String)
  | vBool (b : Bool)
deriving DecidableEq, Repr

/-- The two bus faults the dispatcher can reply with. -/
inductive BusError
  | accessDenied
  | unknownMethod
deriving DecidableEq, Repr

/-- Reply sent through the method invocation. -/
inductive MethodReply
  | returnError (e : BusError)
  | returnValue
deriving DecidableEq, Repr

/-- Observable side effects of dispatching one method call: the argument of
an executed `integration->load(...)`, and the `(parent, filepath)` of a
successfully created open-with dialog. -/
structure CallEffects where
  loadCalledWith : Option String := none
  dialogCreated : Option (String × String) := none
deriving DecidableEq, Repr

/-- No side effect at all. -/
def noEffects : CallEffects := {}

/-- Environment of the dispatcher: the parent identity recorded at
registration, whether `Instance()` resolves non-null, and whether
`CreateGtkOpenWithDialog` returns a non-null dialog. -/
structure DispatcherEnv where
  parentDBusName : String
  instanceResolves : Bool
  dialogCreationSucceeds : Bool
deriving DecidableEq, Repr

/-- `GlibVariantCast<Glib::ustring>` on `parameters.get_child i`: `none`
models the cast or the child access throwing. -/
def castToString : Option Variant → Option String
  | some (.vString s) => some s
  | _ => none

/-- The body of the dispatcher's `try` block; `none` models a thrown
exception or the fall-through on a null dialog, both of which reach the
unknown-method fault after the block. -/
def dispatchTry (env : DispatcherEnv) (methodName : String)
    (parameters : List Variant) : Option (MethodReply × CallEffects) :=
  if env.instanceResolves = false then none
  else if methodName = "Load" then
    match castToString (parameters.get? 0) with
    | some allowedBackends =>
      some (.returnValue, { noEffects with loadCalledWith := some allowedBackends })
    | none => none
  else if methodName = "ShowOpenWithDialog" then
    match castToString (parameters.get? 0), castToString (parameters.get? 1) with
    | some parent, some filepath =>
      if env.dialogCreationSucceeds then
        some (.returnValue, { noEffects with dialogCreated := some (parent, filepath) })
      else none
    | _, _ => none
  else none

/-- `GtkIntegration::Private::handleMethodCall`: rejects foreign senders
with an access-denied fault before anything runs, then dispatches, replying
with an unknown-method fault whenever the `try` block does not produce a
reply. -/
def handleMethodCall (env : DispatcherEnv) (sender : String)
    (methodName : String) (parameters : List Variant) :
    MethodReply × CallEffects :=
  if sender ≠ env.parentDBusName then
    (.returnError .accessDenied, noEffects)
  else
    (dispatchTry env methodName parameters).getD
      (.returnError .unknownMethod, noEffects)

/-! ### Dialog response signal (at-most-once emission)

In the `ShowOpenWithDialog` handler the dialog's `response()` stream is
subscribed with a handler that emits one `OpenWithDialogResponse` signal to
the recorded parent (swallowing emission failures) and then deletes the
dialog, ending the subscription's lifetime. -/

/-- A signal emitted on the bus connection. -/
structure BusSignal where
  destination : String
  signalName : String
  response : Bool
deriving DecidableEq, Repr

/-- State of one created dialog: whether it is still alive (not yet
deleted) and the signals emitted so far on its behalf. -/
structure DialogRun where
  alive : Bool := true
  emitted : List BusSignal := []
deriving DecidableEq, Repr

/-- Delivery of one `response` event of the dialog.  The event carries the
boolean result and whether `emit_signal` succeeds (its failure is caught and
swallowed); the handler runs only while the dialog is alive and always
deletes the dialog afterwards. -/
def dialogResponseStep (parentDBusName : String) (st : DialogRun)
    (ev : Bool × Bool) : DialogRun :=
  if st.alive then
    { alive := false
      emitted := st.emitted
        ++ (if ev.2 then [⟨parentDBusName, "OpenWithDialogResponse", ev.1⟩] else []) }
  else st

/-- All signals emitted for one created dialog over a sequence of response
events. -/
def dialogSignals (parentDBusName : String) (events : List (Bool × Bool)) :
    List BusSignal :=
  (events.foldl (dialogResponseStep parentDBusName) {}).emitted

/-! ### Capability proxy (remoting mode)

Embeds the remoting branches of `GtkIntegration::load` and
`GtkIntegration::showOpenWithDialog` as functions of an environment
recording which bus operations succeed, together with the ordered trace of
bus-level steps the proxy performs. -/

/-- Outcome of `signal_subscribe`: it can throw, return the null id `0`, or
return a usable subscription id. -/
inductive SubscribeOutcome
  | subThrows
  | subZero
  | subOk
deriving DecidableEq, Repr

/-- Environment of one remoting `showOpenWithDialog` call. -/
structure ProxyEnv where
  dbusConnection : Bool
  callThrows : Bool
  subscribeOutcome : SubscribeOutcome
  signalResult : Option Bool
deriving DecidableEq, Repr

/-- Ordered bus-level steps performed by the remoting proxy. -/
inductive ProxyEvent
  | busCall
  | subscribe
  | loopRun
  | unsubscribe
deriving DecidableEq, Repr

/-- The `try` block of the remoting branch of `showOpenWithDialog`: the
synchronous `ShowOpenWithDialog` call, then the `OpenWithDialogResponse`
subscription, then (only for a non-zero subscription id) the nested event
loop and the unconditional unsubscribe; `.error` models a thrown
exception reaching the enclosing `catch`. -/
def showOpenWithDialogTry (env : ProxyEnv) :
    List ProxyEvent × Except Unit Bool :=
  if env.callThrows then ([.busCall], .error ())
  else match env.subscribeOutcome with
    | .subThrows => ([.busCall, .subscribe], .error ())
    | .subZero => ([.busCall, .subscribe], .ok false)
    | .subOk => ([.busCall, .subscribe, .loopRun, .unsubscribe],
        .ok (env.signalResult.getD false))

/-- Remoting branch of `GtkIntegration::showOpenWithDialog`: returns at once
with `false` when no bus connection exists, and converts any exception of
the `try` block into `false`.  The first component is the trace of bus-level
steps. -/
def showOpenWithDialog (env : ProxyEnv) : List ProxyEvent × Bool :=
  if env.dbusConnection = false then ([], false)
  else match showOpenWithDialogTry env with
    | (tr, .ok b) => (tr, b)
    | (tr, .error _) => (tr, false)

/-- Environment of one `GtkIntegration::load` call. -/
structure LoadEnv where
  remoting : Bool
  dbusConnection : Bool
  loadCallThrows : Bool
  baseLoadSucceeds : Bool
deriving DecidableEq, Repr

/-- Observable outcome of a `load` call that passed its precondition: the
new value of the static `Loaded` flag and whether the synchronous `Load`
bus call was attempted. -/
structure LoadOutcome where
  newLoaded : Bool
  busCallAttempted : Bool
deriving DecidableEq, Repr

/-- `GtkIntegration::load`, with the static `Loaded` flag passed explicitly.
`Expects(!Loaded)` failing is `.error ()`.  In remoting mode the call is a
no-op without a connection and otherwise attempts the bus call, swallowing
any exception; only the local (non-remoting) branch ever sets `Loaded`,
after the base integration reports itself loaded. -/
def load (env : LoadEnv) (Loaded : Bool) : Except Unit LoadOutcome :=
  if Loaded then .error ()
  else if env.remoting then
    if env.dbusConnection = false then .ok ⟨Loaded, false⟩
    else .ok ⟨Loaded, true⟩
  else if env.baseLoadSucceeds = false then .ok ⟨Loaded, false⟩
  else .ok ⟨true, false⟩

/-! ### Send-as-copy album path (api/api_as_copy.cpp)

Embeds `PrepareAlbumItemMedia`, `InputMediaFromItem` and
`SendAlbumFromItems`.  Collaborators outside the excerpt
(`ConvertTextTagsToEntities`, `EntitiesToMTP`, `TextUtilities::Trim`,
`base::RandomValue`) are modelled minimally: tags and entities are opaque
strings converted one-for-one, trimming strips surrounding whitespace, and
the random ids come from a stream indexed by loop iteration. -/

/-- Qt `TextWithTags`: editor text plus its formatting tags. -/
structure TextWithTags where
  text : String
  tags : List String
deriving DecidableEq, Repr

/-- A default-constructed `TextWithTags()`. -/
def emptyTextWithTags : TextWithTags := ⟨"", []⟩

/-- `TextWithEntities`: text plus parsed entities. -/
structure TextWithEntities where
  text : String
  entities : List String
deriving DecidableEq, Repr

/-- Media attached to a history item, as far as `InputMediaFromItem`
distinguishes it. -/
inductive ItemMedia
  | document (id : Nat)
  | photo (id : Nat)
  | other
deriving DecidableEq, Repr

/-- A history item, reduced to the fields the album path reads. -/
structure HistoryItem where
  originalText : TextWithEntities
  media : ItemMedia
deriving DecidableEq, Repr

/-- The `MTPInputMedia` protocol object built for one item. -/
inductive InputMedia
  | inputMediaDocument (id : Nat)
  | inputMediaPhoto (id : Nat)
  | inputMediaEmpty
deriving DecidableEq, Repr

/-- One `MTPInputSingleMedia` protocol object. -/
structure InputSingleMedia where
  hasEntitiesFlag : Bool
  media : InputMedia
  randomId : Nat
  message : String
  entities : List String
deriving DecidableEq, Repr

/-- Modelled collaborator: `TextUtilities::ConvertTextTagsToEntities`,
treated as a one-for-one conversion of opaque tags to opaque entities. -/
def ConvertTextTagsToEntities (tags : List String) : List String := tags

/-- Modelled collaborator: `Api::EntitiesToMTP` with `SkipLocal`, treated as
passing the entity list through. -/
def EntitiesToMTP (entities : List String) : List String := entities

/-- Modelled collaborator: `TextUtilities::Trim`, stripping surrounding
whitespace from the text. -/
def trimTextWithEntities (t : TextWithEntities) : TextWithEntities :=
  { t with text :=
      ⟨((t.text.data.dropWhile Char.isWhitespace).reverse.dropWhile
          Char.isWhitespace).reverse⟩ }

/-- `Api::AsCopy::PrepareAlbumItemMedia`: builds the single-media entry,
using the caller's comment text and entities when `emptyText` is set and the
item's trimmed original caption otherwise. -/
def PrepareAlbumItemMedia (item : HistoryItem) (media : InputMedia)
    (randomId : Nat) (emptyText : Bool) (comment : TextWithTags) :
    InputSingleMedia :=
  let commentEntities : TextWithEntities :=
    ⟨comment.text, ConvertTextTagsToEntities comment.tags⟩
  let caption := trimTextWithEntities item.originalText
  let sentEntities := EntitiesToMTP
    (if emptyText then commentEntities.entities else caption.entities)
  { hasEntitiesFlag := !sentEntities.isEmpty
    media := media
    randomId := randomId
    message := if emptyText then commentEntities.text else caption.text
    entities := sentEntities }

/-- `Api::AsCopy::InputMediaFromItem`. -/
def InputMediaFromItem (i : HistoryItem) : InputMedia :=
  match i.media with
  | .document id => .inputMediaDocument id
  | .photo id => .inputMediaPhoto id
  | .other => .inputMediaEmpty

/-- The `medias` accumulation loop of `SendAlbumFromItems`: each item is
prepared with the caller's comment while `medias` is still empty (only the
first iteration) and with a default-constructed `TextWithTags()` afterwards.
`rnd` supplies `base::RandomValue<uint64>()` per iteration. -/
def buildAlbumMedias (emptyText : Bool) (comment : TextWithTags)
    (rnd : Nat → Nat) :
    List HistoryItem → List InputSingleMedia → List InputSingleMedia
  | [], acc => acc
  | i :: rest, acc =>
    buildAlbumMedias emptyText comment rnd rest
      (acc ++ [PrepareAlbumItemMedia i (InputMediaFromItem i)
        (rnd acc.length) emptyText
        (if acc.isEmpty then comment else emptyTextWithTags)])

/-- Options of one send-as-copy submission. -/
structure ToSend where
  peers : List Nat
  comment : TextWithTags
  emptyText : Bool
  silent : Bool
  scheduledDraft : Bool
deriving DecidableEq, Repr

/-- One `messages.sendMultiMedia` request issued to the remote API. -/
structure SendMultiMediaRequest where
  peer : Nat
  medias : List InputSingleMedia
  silent : Bool
  scheduled : Bool
deriving DecidableEq, Repr

/-- `Api::AsCopy::SendAlbumFromItems`, reduced to the requests it issues:
nothing at all for an empty item list, otherwise one `sendMultiMedia`
request per target peer carrying the shared `medias` vector. -/
def SendAlbumFromItems (items : List HistoryItem) (rnd : Nat → Nat)
    (toSend : ToSend) : List SendMultiMediaRequest :=
  if items.isEmpty then []
  else
    let medias := buildAlbumMedias toSend.emptyText toSend.comment rnd items []
    toSend.peers.map
      (fun peer => ⟨peer, medias, toSend.silent, toSend.scheduledDraft⟩)

/-! ### Helper lemmas -/

/-- Once a dialog has been deleted, later response events change nothing. -/
lemma dialogRun_frozen (parent : String) (events : List (Bool × Bool))
    (st : DialogRun) (h : st.alive = false) :
    events.foldl (dialogResponseStep parent) st = st := by
  induction events with
  | nil => rfl
  | cons e es ih => simp [List.foldl_cons, dialogResponseStep, h, ih]

/-- A `load` call never trips the `Expects` unless `Loaded` already holds. -/
lemma load_error_iff (env : LoadEnv) (b : Bool) :
    load env b = .error () ↔ b = true := by
  obtain ⟨r, c, t, bb⟩ := env
  cases b <;> cases r <;> cases c <;> cases bb <;> simp [load]

/-- The `Loaded` flag after a successful `load` call from the unloaded
state: set exactly by a completed local-mode load. -/
lemma load_newLoaded (env : LoadEnv) (out : LoadOutcome)
    (h : load env false = .ok out) :
    out.newLoaded = (!env.remoting && env.baseLoadSucceeds) := by
  obtain ⟨r, c, t, b⟩ := env
  cases r <;> cases c <;> cases b <;>
    simp [load] at h <;> simp [← h]

/-- Effect of one `Autorestart` call on one type's watch count. -/
lemma autorestart_step_count (connOk : Bool) (init : IntegrationType → Nat)
    (c u : IntegrationType) :
    (Autorestart connOk init c) u
      = init u + (if (supervisedByAutorestart c && connOk) && u = c
          then 1 else 0) := by
  unfold Autorestart
  by_cases h1 : (supervisedByAutorestart c && connOk) = true
  · by_cases h2 : u = c <;> simp [h1, h2]
  · simp [h1]

/-- Watch count after folding `Autorestart` calls over any initial count. -/
lemma autorestart_foldl_count (connOk : Bool) (calls : List IntegrationType)
    (init : IntegrationType → Nat) (t : IntegrationType) :
    (calls.foldl (Autorestart connOk) init) t
      = init t + (if supervisedByAutorestart t && connOk
          then calls.count t else 0) := by
  induction calls generalizing init with
  | nil => simp
  | cons c cs ih =>
    rw [List.foldl_cons, ih, autorestart_step_count, List.count_cons]
    by_cases h2 : t = c
    · subst h2
      by_cases hs : (supervisedByAutorestart t && connOk) = true <;>
        simp [hs] <;> omega
    · have hbeq : (t == c) = false := by simp [h2]
      have h2s : ¬c = t := fun hh => h2 hh.symm
      by_cases hs : (supervisedByAutorestart t && connOk) = true <;>
        simp [hs, h2, h2s, hbeq]

/-- With `emptyText` set, every media prepared after the first carries an
empty message: once the accumulator is non-empty the loop passes a
default-constructed comment, whose text is empty. -/
lemma buildAlbumMedias_tail_messages (comment : TextWithTags)
    (rnd : Nat → Nat) (items : List HistoryItem)
    (acc : List InputSingleMedia) (hacc : acc ≠ []) :
    (buildAlbumMedias true comment rnd items acc).map (fun m => m.message)
      = acc.map (fun m => m.message) ++ List.replicate items.length "" := by
  induction items generalizing acc with
  | nil => simp [buildAlbumMedias]
  | cons i rest ih =>
    rw [buildAlbumMedias]
    have hne : acc.isEmpty = false := by
      simpa [List.isEmpty_iff] using hacc
    rw [ih _ (by simp)]
    simp [hne, PrepareAlbumItemMedia, emptyTextWithTags, List.replicate_succ]

/-- A hex nibble character is never a place-marker introducer. -/
lemma nibbleChar_ne_percent (n : Nat) : nibbleChar n ≠ '%' := by
  unfold nibbleChar
  rcases Nat.lt_or_ge n 16 with hlt | hge
  · interval_cases n <;> decide
  · rw [List.getD_eq_default]
    · decide
    · simpa using hge

/-- The hex MD5 digest contains no `'%'` character, so splicing it into a
service-name template cannot create or destroy place markers. -/
lemma hashMd5Hex_no_percent (msg : List Nat) :
    '%' ∉ (hashMd5Hex msg).data := by
  intro hmem
  rw [show (hashMd5Hex msg).data = (md5Digest msg).flatMap byteHexChars
    from rfl] at hmem
  rcases List.mem_flatMap.mp hmem with ⟨b, _hb, hc⟩
  simp only [byteHexChars, List.mem_cons, List.not_mem_nil, or_false] at hc
  rcases hc with h | h
  · exact nibbleChar_ne_percent _ h.symm
  · exact nibbleChar_ne_percent _ h.symm

/-- `replaceMarker` passes a marker-free prefix through unchanged. -/
lemma replaceMarker_append (digit : Char) (rep pre suf : List Char)
    (hpre : '%' ∉ pre) :
    replaceMarker digit rep (pre ++ suf)
      = pre ++ replaceMarker digit rep suf := by
  induction pre with
  | nil => rfl
  | cons c cs ih =>
    have hc : ¬c = '%' := by
      intro h
      exact hpre (by simp [h])
    have hcs : '%' ∉ cs := fun h => hpre (List.mem_cons_of_mem c h)
    rcases hsplit : cs ++ suf with _ | ⟨x, xs⟩
    · obtain ⟨hcs0, hsuf0⟩ := List.append_eq_nil.mp hsplit
      subst hcs0
      subst hsuf0
      simp [replaceMarker]
    · have hstep : replaceMarker digit rep (c :: cs ++ suf)
          = c :: replaceMarker digit rep (cs ++ suf) := by
        rw [List.cons_append, hsplit, replaceMarker, if_neg, ← hsplit]
        exact fun hand => hc hand.1
      rw [hstep, ih hcs]
      simp

/-- `QString::arg` on the base-integration template appends the argument to
the hyphen-terminated prefix. -/
lemma qtArg_base_eq (h : String) :
    qtArg kBaseService '1' h
      = "org.telegram.desktop.BaseGtkIntegration-" ++ h := by
  apply String.ext
  show replaceMarker '1' h.data kBaseService.data = _
  rw [show kBaseService.data
      = "org.telegram.desktop.BaseGtkIntegration-".data ++ ['%', '1']
    from by decide]
  rw [replaceMarker_append _ _ _ _ (by decide)]
  rw [show replaceMarker '1' h.data ['%', '1'] = h.data ++ [] from rfl]
  simp [String.data_append]

/-- `QString::arg` on the application-integration template appends the
argument to the hyphen-terminated prefix. -/
lemma qtArg_service_eq (h : String) :
    qtArg kService '1' h
      = "org.telegram.desktop.GtkIntegration-" ++ h := by
  apply String.ext
  show replaceMarker '1' h.data kService.data = _
  rw [show kService.data
      = "org.telegram.desktop.GtkIntegration-".data ++ ['%', '1']
    from by decide]
  rw [replaceMarker_append _ _ _ _ (by decide)]
  rw [show replaceMarker '1' h.data ['%', '1'] = h.data ++ [] from rfl]
  simp [String.data_append]

/-- The two `QString::arg` steps on the web-view template leave a trailing
`"-%1"` slot after the spliced digest, provided the digest is
marker-free. -/
lemma qtArg_webview_eq (h : String) (hh : '%' ∉ h.data) :
    qtArg (qtArg kWebviewService '1' h) '2' "%1"
      = "org.telegram.desktop.GtkIntegration.WebviewHelper-" ++ h
          ++ "-%1" := by
  have hinner : (qtArg kWebviewService '1' h).data
      = ("org.telegram.desktop.GtkIntegration.WebviewHelper-".data
          ++ h.data ++ ['-']) ++ ['%', '2'] := by
    show replaceMarker '1' h.data kWebviewService.data = _
    rw [show kWebviewService.data
        = "org.telegram.desktop.GtkIntegration.WebviewHelper-".data
            ++ ('%' :: '1' :: '-' :: '%' :: '2' :: [])
      from by decide]
    rw [replaceMarker_append _ _ _ _ (by decide)]
    rw [show replaceMarker '1' h.data ('%' :: '1' :: '-' :: '%' :: '2' :: [])
        = h.data ++ replaceMarker '1' h.data ('-' :: '%' :: '2' :: [])
      from rfl]
    rw [show replaceMarker '1' h.data ('-' :: '%' :: '2' :: [])
        = '-' :: '%' :: '2' :: [] from rfl]
    simp
  apply String.ext
  show replaceMarker '2' "%1".data (qtArg kWebviewService '1' h).data = _
  rw [hinner]
  rw [replaceMarker_append _ _ _ _ ?hpre]
  case hpre =>
    intro hmem
    rcases List.mem_append.mp hmem with hm | hm
    · rcases List.mem_append.mp hm with hm2 | hm2
      · revert hm2
        decide
      · exact hh hm2
    · revert hm
      decide
  rw [show replaceMarker '2' "%1".data ['%', '2'] = "%1".data ++ []
    from rfl]
  simp [String.data_append]

/-! ### Claim theorems -/

/-- Claim C1: a method call whose sender differs from the parent identity
recorded at registration is answered with an access-denied fault and has no
side effect — no dialog created, no load performed — and the handlers can
produce effects only for the recorded parent. -/
theorem C1_access_control (env : DispatcherEnv)
    (sender methodName : String) (parameters : List Variant) :
    (sender ≠ env.parentDBusName →
      handleMethodCall env sender methodName parameters
        = (.returnError .accessDenied, noEffects))
    ∧ ((handleMethodCall env sender methodName parameters).2 ≠ noEffects →
        sender = env.parentDBusName) := by
  constructor
  · intro h
    simp [handleMethodCall, h]
  · intro h
    by_contra hne
    simp [handleMethodCall, hne] at h

/-- Witness for C1 at a concrete foreign sender. -/
theorem C1_access_control_witness :
    handleMethodCall ⟨":1.1", true, true⟩ ":1.99" "Load" [.vString "x11"]
      = (.returnError .accessDenied, noEffects) :=
  (C1_access_control ⟨":1.1", true, true⟩ ":1.99" "Load"
    [.vString "x11"]).1 (by decide)

/-- Claim C9: an authenticated call with an unrecognised method name, or
with a null capability object, or whose open-with dialog resolves to null,
is answered with an unknown-method fault and has no other effect. -/
theorem C9_unknown_method (env : DispatcherEnv)
    (sender methodName : String) (parameters : List Variant)
    (hsender : sender = env.parentDBusName)
    (hcase : (methodName ≠ "Load" ∧ methodName ≠ "ShowOpenWithDialog")
      ∨ env.instanceResolves = false
      ∨ (methodName = "ShowOpenWithDialog"
          ∧ env.dialogCreationSucceeds = false)) :
    handleMethodCall env sender methodName parameters
      = (.returnError .unknownMethod, noEffects) := by
  subst hsender
  have hself : ¬env.parentDBusName ≠ env.parentDBusName := fun h => h rfl
  by_cases hi : env.instanceResolves = false
  · simp [handleMethodCall, dispatchTry, hself, hi]
  · rcases hcase with ⟨h1, h2⟩ | h | ⟨h1, h2⟩
    · simp [handleMethodCall, dispatchTry, hself, hi, h1, h2]
    · exact absurd h hi
    · subst h1
      rcases hp0 : castToString parameters[0]? with _ | p
      · simp [handleMethodCall, dispatchTry, hself, hi, hp0, h2]
      · rcases hp1 : castToString parameters[1]? with _ | q <;>
          simp [handleMethodCall, dispatchTry, hself, hi, hp0, hp1, h2]

/-- Witness for C9 at a concrete unknown method name. -/
theorem C9_unknown_method_witness :
    handleMethodCall ⟨":1.1", true, true⟩ ":1.1" "Quit" []
      = (.returnError .unknownMethod, noEffects) :=
  C9_unknown_method ⟨":1.1", true, true⟩ ":1.1" "Quit" [] rfl
    (Or.inl ⟨by decide, by decide⟩)

/-- Claim C4: without a bus connection, remoting `load` is an immediate
no-op and remoting `showOpenWithDialog` immediately returns `false`, neither
raising any fault; `showOpenWithDialog` also returns `false` when the
synchronous call throws or the signal subscription fails. -/
theorem C4_degraded_fallback (p : ProxyEnv) (l : LoadEnv) :
    (p.dbusConnection = false → showOpenWithDialog p = ([], false))
    ∧ (p.callThrows = true → (showOpenWithDialog p).2 = false)
    ∧ (p.subscribeOutcome ≠ .subOk → (showOpenWithDialog p).2 = false)
    ∧ (l.remoting = true → l.dbusConnection = false →
        load l false = .ok ⟨false, false⟩) := by
  obtain ⟨c, t, s, r⟩ := p
  obtain ⟨lr, lc, lt, lb⟩ := l
  refine ⟨?_, ?_, ?_, ?_⟩ <;>
    cases c <;> cases t <;> cases s <;> cases lr <;> cases lc <;>
      simp [showOpenWithDialog, showOpenWithDialogTry, load]

/-- Witness for C4 at concrete degraded environments. -/
theorem C4_degraded_fallback_witness :
    showOpenWithDialog ⟨false, false, .subZero, none⟩ = ([], false)
    ∧ (showOpenWithDialog ⟨true, true, .subZero, none⟩).2 = false
    ∧ (showOpenWithDialog ⟨true, false, .subZero, none⟩).2 = false
    ∧ load ⟨true, false, false, true⟩ false = .ok ⟨false, false⟩ :=
  ⟨(C4_degraded_fallback ⟨false, false, .subZero, none⟩
      ⟨true, false, false, true⟩).1 rfl,
   (C4_degraded_fallback ⟨true, true, .subZero, none⟩
      ⟨true, false, false, true⟩).2.1 rfl,
   (C4_degraded_fallback ⟨true, false, .subZero, none⟩
      ⟨true, false, false, true⟩).2.2.1 (by decide),
   (C4_degraded_fallback ⟨false, false, .subZero, none⟩
      ⟨true, false, false, true⟩).2.2.2 rfl rfl⟩

/-- Claim C7 counterexample: after a first remoting-mode `load` call from
the unloaded state the `Loaded` flag is still `false`, so a second call
passes `Expects(!Loaded)` — a second call after a previous call does not, in
general, violate the precondition. -/
theorem C7_counterexample :
    load ⟨true, true, false, true⟩ false
        = .ok { newLoaded := false, busCallAttempted := true }
    ∧ load ⟨true, true, false, true⟩ false ≠ .error () := by
  refine ⟨rfl, ?_⟩
  intro h
  simp [load] at h

/-- Claim C7 as amended: starting unloaded, a second `load` call trips the
`Expects(!Loaded)` assertion exactly when the first call completed a
local-mode (non-remoting) load; when `load` has not previously completed,
the assertion never fires. -/
theorem C7_load_guard (env1 env2 : LoadEnv) (out : LoadOutcome)
    (h : load env1 false = .ok out) :
    (load env2 out.newLoaded = .error ()
      ↔ (env1.remoting = false ∧ env1.baseLoadSucceeds = true))
    ∧ load env2 false ≠ .error () := by
  constructor
  · rw [load_error_iff, load_newLoaded env1 out h]
    obtain ⟨r, c, t, b⟩ := env1
    cases r <;> cases b <;> simp
  · rw [Ne, load_error_iff]
    simp

/-- Witness for C7 as amended: a completed local-mode load makes the next
call trip the assertion. -/
theorem C7_load_guard_witness :
    (load ⟨true, true, false, true⟩ true = .error ()
      ↔ ((false : Bool) = false ∧ (true : Bool) = true))
    ∧ load ⟨true, true, false, true⟩ false ≠ .error () := by
  have h := C7_load_guard ⟨false, true, false, true⟩
    ⟨true, true, false, true⟩ { newLoaded := true, busCallAttempted := false }
    rfl
  exact h

/-- Claim C6 counterexample: two `Autorestart` calls for the same supervised
type register two watches — `Autorestart` does not deduplicate, so "at most
one watch per supervised type" fails. -/
theorem C6_counterexample :
    watchesAfter true [.Base, .Base] .Base = 2
    ∧ ¬ watchesAfter true [.Base, .Base] .Base ≤ 1 := by
  constructor
  · rfl
  · decide

/-- Claim C6 as amended: every `Autorestart` call for a supervised type
(`Base` or `TDesktop`) with an obtainable bus connection registers exactly
one further watch for that type — calls for different types count
independently and unsupervised or connectionless calls register nothing —
so at most one watch per type holds exactly when `Autorestart` is invoked
at most once per type. -/
theorem C6_autorestart_watch_count (connOk : Bool)
    (calls : List IntegrationType) (t : IntegrationType) :
    watchesAfter connOk calls t
      = (if supervisedByAutorestart t && connOk then calls.count t else 0)
    ∧ (calls.count t ≤ 1 → watchesAfter connOk calls t ≤ 1) := by
  have h := autorestart_foldl_count connOk calls (fun _ => 0) t
  constructor
  · simpa [watchesAfter] using h
  · intro hcount
    rw [watchesAfter, h]
    split <;> omega

/-- Witness for C6 as amended: one call per type keeps each count at one. -/
theorem C6_autorestart_watch_count_witness :
    watchesAfter true [.Base, .TDesktop] .Base ≤ 1 :=
  (C6_autorestart_watch_count true [.Base, .TDesktop] .Base).2 (by decide)

/-- Claim C8 counterexample: for the supported `Webview` type, `Start`
returns after recording the service name and spawns no child even though a
bus connection (unique name `":1.23"`) is available. -/
theorem C8_counterexample :
    Start .Webview (asciiBytes "/home/u/app") (some ":1.23") = none := rfl

/-- Claim C8 as amended: for the `Base` and `TDesktop` types, when the bus
connection yields a non-empty unique name, `Start` spawns a detached child
whose positional arguments are exactly the mode flag, the parent's unique
bus name, and the computed service name; without a bus connection nothing
is spawned; for `Webview`, `Start` only records the service name and never
spawns. -/
theorem C8_start_spawn (workdirBytes : List Nat) (name : String)
    (hname : name ≠ "") :
    Start .Base workdirBytes (some name)
        = some ["-basegtkintegration", name,
            startServiceName .Base workdirBytes]
    ∧ Start .TDesktop workdirBytes (some name)
        = some ["-gtkintegration", name,
            startServiceName .TDesktop workdirBytes]
    ∧ (∀ t, Start t workdirBytes none = none)
    ∧ (∀ x, Start .Webview workdirBytes x = none) := by
  refine ⟨?_, ?_, ?_, ?_⟩
  · simp [Start, startServiceName, startModeFlag, hname]
  · simp [Start, startServiceName, startModeFlag, hname]
  · intro t
    cases t <;> simp [Start]
  · intro x
    simp [Start]

/-- Witness for C8 as amended at a concrete working directory and name. -/
theorem C8_start_spawn_witness :
    Start .TDesktop (asciiBytes "/home/u/app") (some ":1.23")
      = some ["-gtkintegration", ":1.23",
          startServiceName .TDesktop (asciiBytes "/home/u/app")] :=
  (C8_start_spawn (asciiBytes "/home/u/app") ":1.23" (by decide)).2.1

set_option maxRecDepth 8000 in
/-- Claim C5 counterexample: any identity of the claimed form
`<template>-<hex digest>` ends with the digest, but the `Webview` identity
computed by `Start` ends with a trailing `"-%1"` instance slot instead, so
the claimed form fails for the supported `Webview` type. -/
theorem C5_counterexample :
    (hashMd5Hex (asciiBytes "/home/u/app")).data.isSuffixOf
        (startServiceName .Webview (asciiBytes "/home/u/app")).data = false
    ∧ startServiceName .Webview (asciiBytes "/home/u/app")
        = "org.telegram.desktop.GtkIntegration.WebviewHelper-e8fe62499352db84ffbb31a6ce9eda68-%1" := by
  decide

/-- Claim C5 as amended: the identity computed by `Start` is a pure
function of the integration type and working-directory bytes (hence stable
across repeated computations and restarts), and equals
`<per-type template>-<hex MD5 digest>` for the `Base` and `TDesktop`
types, while for `Webview` it carries a further trailing `"-%1"` slot
after the digest. -/
theorem C5_identity_form (workdirBytes : List Nat) :
    startServiceName .Base workdirBytes = specServiceName .Base workdirBytes
    ∧ startServiceName .TDesktop workdirBytes
        = specServiceName .TDesktop workdirBytes
    ∧ startServiceName .Webview workdirBytes
        = specServiceName .Webview workdirBytes ++ "-%1" := by
  have hA : ("org.telegram.desktop.BaseGtkIntegration-" : String)
      = "org.telegram.desktop.BaseGtkIntegration" ++ "-" := by decide
  have hB : ("org.telegram.desktop.GtkIntegration-" : String)
      = "org.telegram.desktop.GtkIntegration" ++ "-" := by decide
  have hC : ("org.telegram.desktop.GtkIntegration.WebviewHelper-" : String)
      = "org.telegram.desktop.GtkIntegration.WebviewHelper" ++ "-" := by
    decide
  refine ⟨?_, ?_, ?_⟩
  · show qtArg kBaseService '1' (hashMd5Hex workdirBytes) = _
    rw [qtArg_base_eq, specServiceName, specTemplate, hA]
  · show qtArg kService '1' (hashMd5Hex workdirBytes) = _
    rw [qtArg_service_eq, specServiceName, specTemplate, hB]
  · show qtArg (qtArg kWebviewService '1' (hashMd5Hex workdirBytes)) '2' "%1"
        = _
    rw [qtArg_webview_eq _ (hashMd5Hex_no_percent workdirBytes),
      specServiceName, specTemplate, hC]

/-- Claim C2 counterexample: in a fully successful remoting run the proxy's
trace is call, subscribe, loop, unsubscribe — the synchronous
`ShowOpenWithDialog` call strictly precedes the `OpenWithDialogResponse`
subscription, so the claimed subscribe-before-call order does not hold. -/
theorem C2_counterexample :
    (showOpenWithDialog ⟨true, false, .subOk, some true⟩).1
        = [.busCall, .subscribe, .loopRun, .unsubscribe]
    ∧ ¬ (showOpenWithDialog ⟨true, false, .subOk, some true⟩).1.indexOf
          .subscribe
        < (showOpenWithDialog ⟨true, false, .subOk, some true⟩).1.indexOf
          .busCall := by
  decide

/-- Claim C2 as amended: in remoting mode `showOpenWithDialog` issues the
synchronous `ShowOpenWithDialog` call first, subscribes to the
`OpenWithDialogResponse` signal only afterwards, and pumps the nested event
loop only after the subscription step succeeded. -/
theorem C2_call_then_subscribe (env : ProxyEnv) :
    ((.subscribe : ProxyEvent) ∈ (showOpenWithDialog env).1 →
      (.busCall : ProxyEvent) ∈ (showOpenWithDialog env).1
      ∧ (showOpenWithDialog env).1.indexOf .busCall
          < (showOpenWithDialog env).1.indexOf .subscribe)
    ∧ ((.loopRun : ProxyEvent) ∈ (showOpenWithDialog env).1 →
      env.subscribeOutcome = .subOk
      ∧ (showOpenWithDialog env).1.indexOf .subscribe
          < (showOpenWithDialog env).1.indexOf .loopRun) := by
  obtain ⟨c, t, s, r⟩ := env
  cases c <;> cases t <;> cases s <;>
    simp [showOpenWithDialog, showOpenWithDialogTry]

/-- Witness for C2 as amended on the fully successful run. -/
theorem C2_call_then_subscribe_witness :
    (.busCall : ProxyEvent)
        ∈ (showOpenWithDialog ⟨true, false, .subOk, some true⟩).1
    ∧ (showOpenWithDialog ⟨true, false, .subOk, some true⟩).1.indexOf
          .busCall
        < (showOpenWithDialog ⟨true, false, .subOk, some true⟩).1.indexOf
          .subscribe :=
  (C2_call_then_subscribe ⟨true, false, .subOk, some true⟩).1 (by decide)

/-- Claim C3 counterexample: a dialog whose completion event fires while
`emit_signal` throws (the failure the handler swallows) produces zero
signals, not the exactly-one the claim states for a fired completion
event. -/
theorem C3_counterexample :
    dialogSignals ":1.5" [(true, false)] = []
    ∧ [(true, false)] ≠ ([] : List (Bool × Bool)) := by
  refine ⟨rfl, by decide⟩

/-- Claim C3 as amended: per handled `ShowOpenWithDialog` call, at most one
`OpenWithDialogResponse` signal is ever emitted — never two — and any
emitted signal targets the recorded parent identity; exactly one is emitted
when the dialog's completion event fires and its emission does not throw,
and none when the dialog never resolves. -/
theorem C3_at_most_once_signal (parent : String)
    (events : List (Bool × Bool)) :
    (dialogSignals parent events).length ≤ 1
    ∧ (∀ s ∈ dialogSignals parent events,
        s.destination = parent ∧ s.signalName = "OpenWithDialogResponse")
    ∧ (∀ v rest, events = (v, true) :: rest →
        dialogSignals parent events
          = [⟨parent, "OpenWithDialogResponse", v⟩])
    ∧ (events = [] → dialogSignals parent events = []) := by
  cases events with
  | nil => simp [dialogSignals]
  | cons e es =>
    obtain ⟨v, ok⟩ := e
    rw [dialogSignals, List.foldl_cons,
      dialogRun_frozen parent es _ (by simp [dialogResponseStep])]
    cases ok <;> simp [dialogResponseStep]

/-- Witness for C3 as amended: a fired completion event with a working
connection emits exactly the one parent-targeted signal. -/
theorem C3_at_most_once_signal_witness :
    dialogSignals ":1.7" [(true, true)]
      = [⟨":1.7", "OpenWithDialogResponse", true⟩] :=
  (C3_at_most_once_signal ":1.7" [(true, true)]).2.2.1 true [] rfl

/-- Claim C10: with `emptyText` set, only the first album item is prepared
with the caller's comment text, every later one with an empty comment; an
empty item list issues no request at all. -/
theorem C10_album_comment (items : List HistoryItem) (rnd : Nat → Nat)
    (toSend : ToSend) (hempty : toSend.emptyText = true) :
    (items = [] → SendAlbumFromItems items rnd toSend = [])
    ∧ (∀ i rest, items = i :: rest →
        ∀ req ∈ SendAlbumFromItems items rnd toSend,
          req.medias.map (fun m => m.message)
            = toSend.comment.text :: List.replicate rest.length "") := by
  constructor
  · intro h
    subst h
    simp [SendAlbumFromItems]
  · intro i rest heq req hreq
    subst heq
    rw [SendAlbumFromItems] at hreq
    simp only [List.isEmpty_cons, if_false, Bool.false_eq_true,
      List.mem_map] at hreq
    obtain ⟨peer, _hpeer, hr⟩ := hreq
    subst hr
    rw [hempty]
    show (buildAlbumMedias true toSend.comment rnd (i :: rest) []).map
        (fun m => m.message) = _
    rw [buildAlbumMedias]
    rw [buildAlbumMedias_tail_messages toSend.comment rnd rest _ (by simp)]
    simp [PrepareAlbumItemMedia]

/-- Witness for C10 on a concrete one-item album. -/
theorem C10_album_comment_witness :
    ({ peer := 7
       medias := buildAlbumMedias true ⟨"hi", []⟩ (fun _ => 0)
         [⟨⟨"cap", []⟩, .photo 1⟩] []
       silent := false
       scheduled := false } : SendMultiMediaRequest).medias.map
        (fun m => m.message) = "hi" :: List.replicate 0 "" :=
  (C10_album_comment [⟨⟨"cap", []⟩, .photo 1⟩] (fun _ => 0)
      ⟨[7], ⟨"hi", []⟩, true, false, false⟩ rfl).2
    ⟨⟨"cap", []⟩, .photo 1⟩ [] rfl _ (by simp [SendAlbumFromItems])

end Forkgram
